import Mathlib

/-!
Verification of the Innovation-Dashboard Smartsheet proxy.

The repository has two Python source files, `server.py` and
`api/use-cases.py`, which contain the same sheet-to-domain transformation
(`fetch_smartsheet_data` resp. `_fetch_smartsheet_data`) and the same
error-to-HTTP-status mapping (`AppHandler._handle_api` resp.
`handler.do_GET`).  This file embeds that logic shallowly:

* Python dicts are embedded as association lists together with a lookup
  `pyGet` in which the *last* binding of a key wins, matching the effect of
  building a Python dict by successive assignment and then reading it.
* `record[field] = ...` on the per-row dict is `dictSet`, which replaces the
  value in place when the key is present (Python dicts keep the original
  insertion position of an updated key) and appends otherwise.
* Python truthiness of strings (`if field:`, `if record.get("name"):`,
  `a or b or ""`) is empty-string / `None` falsiness, embedded explicitly.
* The network call, environment variable and config file are effects; they
  are embedded as explicit parameters (`Option String` for the token, a
  `ConfigResult` for the outcome of reading the config file, an
  `UpstreamResult` for the outcome of the Smartsheet request), and the
  exceptions the Python code can raise become an explicit `PyExc` sum:
  `RuntimeError` (raised only for a missing token), `urllib.error.HTTPError`
  (non-2xx upstream response), and everything else (`OSError` from opening
  the config file, `json.JSONDecodeError`, `urllib.error.URLError`, ...)
  collapsed into `otherError`, since the handlers' `except` clauses
  distinguish exactly these three groups.
-/

namespace Dashboard

/-- A JSON-ish value stored in a per-row record: the positional row id is a
Python `int`, every value written by a cell is a string. -/
inductive Value where
  | int (n : Nat)
  | str (s : String)
deriving DecidableEq

/-- One entry of the sheet's `columns` list: `{id, title}`. -/
structure Column where
  id : Nat
  title : String
deriving DecidableEq

/-- One entry of a row's `cells` list: `columnId`, `value`, `displayValue`,
each of which may be absent (`cell.get(...)`). -/
structure Cell where
  columnId : Option Nat
  value : Option String
  displayValue : Option String
deriving DecidableEq

/-- One entry of the sheet's `rows` list. -/
structure Row where
  cells : List Cell
deriving DecidableEq

/-- The parsed sheet payload. `sheet.get("name", "AI Use Cases")` is embedded
by an optional name; `sheet.get("columns", [])` and `sheet.get("rows", [])`
by lists (an absent key behaves as the empty list). -/
structure Sheet where
  name : Option String
  columns : List Column
  rows : List Row
deriving DecidableEq

/-- The `column_map` of the config file: domain field name → column title,
as the insertion-ordered item list of the Python dict. -/
abbrev FieldMap := List (String × String)

/-- A per-row record dict: domain field name → value. -/
abbrev Record := List (String × Value)

/-- Lookup in an association list with Python-dict semantics: building a dict
by assigning the pairs in order and then reading key `k` yields the value of
the *last* pair whose key is `k`. -/
def pyGet {α β : Type} [DecidableEq α] : List (α × β) → α → Option β
  | [], _ => none
  | p :: rest, k =>
      match pyGet rest k with
      | some v => some v
      | none => if p.1 = k then some p.2 else none

/-- `d.get(k, default)`. -/
def pyGetD {α β : Type} [DecidableEq α] (l : List (α × β)) (k : α) (d : β) : β :=
  (pyGet l k).getD d

/-- `d[k] = v` on a Python dict: an existing key keeps its insertion
position and gets the new value; a new key is appended. -/
def dictSet {α β : Type} [DecidableEq α] (d : List (α × β)) (k : α) (v : β) :
    List (α × β) :=
  if d.any (fun p => decide (p.1 = k)) then
    d.map (fun p => if p.1 = k then (k, v) else p)
  else d ++ [(k, v)]

/-- `col_id_to_title`: one entry per column, in order (so a duplicate id is
resolved last-write-wins by `pyGet`). -/
def buildColIdToTitle (columns : List Column) : List (Nat × String) :=
  columns.map (fun c => (c.id, c.title))

/-- `title_to_field = {v: k for k, v in col_map.items()}`: the inverted
field map, one entry per item, in order (a duplicated title is resolved
last-write-wins by `pyGet`). -/
def buildTitleToField (colMap : FieldMap) : List (String × String) :=
  colMap.map (fun p => (p.2, p.1))

/-- Python truthiness filter on an optional string: `None` and `""` are
falsy, anything else passes through. -/
def truthyStr (o : Option String) : Option String :=
  match o with
  | some s => if s = "" then none else some s
  | none => none

/-- `cell.get("displayValue") or cell.get("value") or ""`. -/
def cellValue (cell : Cell) : String :=
  ((truthyStr cell.displayValue).orElse (fun _ => truthyStr cell.value)).getD ""

/-- The body of the inner `for cell in row.get("cells", [])` loop:
resolve `columnId` (default `0`) to a title (default `""`), the title to a
field; `if field:` (non-`None`, non-empty) store the resolved cell value. -/
def applyCell (colIdToTitle : List (Nat × String))
    (titleToField : List (String × String)) (record : Record) (cell : Cell) :
    Record :=
  match pyGet titleToField (pyGetD colIdToTitle (cell.columnId.getD 0) "") with
  | some f => if f = "" then record else dictSet record f (Value.str (cellValue cell))
  | none => record

/-- One iteration of the outer row loop: start from `{"id": idx}` and fold
the cells. -/
def processRow (colIdToTitle : List (Nat × String))
    (titleToField : List (String × String)) (idx : Nat) (row : Row) : Record :=
  row.cells.foldl (applyCell colIdToTitle titleToField) [("id", Value.int idx)]

/-- All per-row records, before the name filter, with the 1-based
`enumerate(..., start=1)` index. -/
def rawRecords (sheet : Sheet) (colMap : FieldMap) : List Record :=
  sheet.rows.enum.map fun p =>
    processRow (buildColIdToTitle sheet.columns) (buildTitleToField colMap)
      (p.1 + 1) p.2

/-- Python truthiness of a record value. -/
def valueTruthy : Value → Bool
  | .int n => n != 0
  | .str s => s != ""

/-- `if record.get("name"):` — the name filter. -/
def hasName (r : Record) : Bool :=
  match pyGet r "name" with
  | some v => valueTruthy v
  | none => false

/-- `uc.get("status", "")`. -/
def statusOf (r : Record) : Value :=
  (pyGet r "status").getD (Value.str "")

structure Summary where
  total_initiatives : Nat
  in_production : Nat
  poc_done : Nat
  poc_in_progress : Nat
deriving DecidableEq

structure Metadata where
  title : String
  source : String
  last_updated : String
deriving DecidableEq

/-- The `{metadata, summary, use_cases}` result dict. -/
structure Output where
  metadata : Metadata
  summary : Summary
  use_cases : List Record
deriving DecidableEq

/-- The pure sheet-to-domain transformation of `fetch_smartsheet_data` /
`_fetch_smartsheet_data` (everything after `sheet` has been parsed), as a
function of the parsed sheet payload and the `column_map`. -/
def transform (sheet : Sheet) (colMap : FieldMap) : Output :=
  let use_cases := (rawRecords sheet colMap).filter hasName
  let statuses := use_cases.map statusOf
  { metadata :=
      { title := sheet.name.getD "AI Use Cases"
        source := "Smartsheet (live)"
        last_updated := "live" }
    summary :=
      { total_initiatives := use_cases.length
        in_production := statuses.count (Value.str "In Production")
        poc_done := statuses.count (Value.str "POC Done")
        poc_in_progress := statuses.count (Value.str "POC In Progress") }
    use_cases := use_cases }

/-! ## The effectful part of `fetch_smartsheet_data` and the HTTP handler -/

/-- Outcome of reading the config file (`load_smartsheet_config` /
`_load_config`).  `fileError` is the `OSError` raised by `open` when the
file is absent or unreadable; `parseError` is the `json.JSONDecodeError`
raised by `json.load`.  Neither is a `RuntimeError`. -/
inductive ConfigResult where
  | fileError (msg : String)
  | parseError (msg : String)
  | ok (sheet_id : String) (column_map : FieldMap)
deriving DecidableEq

/-- Outcome of the `urllib.request.urlopen` call plus `json.loads`.
`httpError` is `urllib.error.HTTPError` (non-2xx response, carrying the
remote status code and reason); `transportError` is any other
`urllib.error.URLError` / timeout; `parseError` is a `json.JSONDecodeError`
on the response body. -/
inductive UpstreamResult where
  | httpError (code : Nat) (reason : String)
  | transportError (msg : String)
  | parseError (msg : String)
  | ok (sheet : Sheet)
deriving DecidableEq

/-- The exception classes the handlers' `except` clauses distinguish:
`RuntimeError`, `urllib.error.HTTPError`, and every other `Exception`. -/
inductive PyExc where
  | runtimeError (msg : String)
  | httpError (code : Nat) (reason : String)
  | otherError (msg : String)
deriving DecidableEq

/-- The characters Python's `str.strip()` removes: exactly the code points
for which `str.isspace()` holds (CPython's `Py_UNICODE_ISSPACE` table):
`\t \n \v \f \r` (U+0009–U+000D), U+001C–U+001F, the space U+0020, U+0085,
U+00A0, U+1680, U+2000–U+200A, U+2028, U+2029, U+202F, U+205F and
U+3000. -/
def pyIsSpace (c : Char) : Bool :=
  (0x09 ≤ c.toNat && c.toNat ≤ 0x0D) ||
  (0x1C ≤ c.toNat && c.toNat ≤ 0x20) ||
  c.toNat = 0x85 || c.toNat = 0xA0 || c.toNat = 0x1680 ||
  (0x2000 ≤ c.toNat && c.toNat ≤ 0x200A) ||
  c.toNat = 0x2028 || c.toNat = 0x2029 || c.toNat = 0x202F ||
  c.toNat = 0x205F || c.toNat = 0x3000

/-- The truthiness test on `os.environ.get("SMARTSHEET_API_TOKEN", "").strip()`:
`strip()` removes exactly the leading and trailing `str.isspace()`
characters, so the stripped token is empty (falsy) iff every character of
the raw value is such a character — in particular when the variable is
absent or set to `""`.  (The stripped token is otherwise used only inside
the `Authorization` header, which the embedding does not model.) -/
def tokenBlank (token : Option String) : Bool :=
  (token.getD "").toList.all pyIsSpace

/-- The message of the `RuntimeError` raised in `server.py` for a missing
token. -/
def tokenMissingMsg : String :=
  "SMARTSHEET_API_TOKEN environment variable is not set. " ++
  "Export it before starting the server for Smartsheet mode."

/-- `fetch_smartsheet_data`, with its three effects (environment variable,
config file, network call) passed in explicitly.  The token check
`os.environ.get("SMARTSHEET_API_TOKEN", "").strip()` runs first and raises
`RuntimeError` on an absent/blank token; config-file failures then surface
as `OSError`/`JSONDecodeError` (here `otherError`); the upstream call
raises `HTTPError` on a non-2xx status and other errors otherwise; on
success the result is `transform sheet column_map`. -/
def fetch_smartsheet_data (token : Option String) (cfg : ConfigResult)
    (upstream : UpstreamResult) : Except PyExc Output :=
  if tokenBlank token then
    .error (.runtimeError tokenMissingMsg)
  else
    match cfg with
    | .fileError m => .error (.otherError m)
    | .parseError m => .error (.otherError m)
    | .ok _ column_map =>
      match upstream with
      | .httpError c r => .error (.httpError c r)
      | .transportError m => .error (.otherError m)
      | .parseError m => .error (.otherError m)
      | .ok sheet => .ok (transform sheet column_map)

/-- An HTTP response body: the JSON payload on success, or the JSON object
`{"error": msg}` built by `_send_error`. -/
inductive Body where
  | payload (o : Output)
  | errorObj (msg : String)
deriving DecidableEq

structure HttpResponse where
  status : Nat
  body : Body
deriving DecidableEq

/-- `AppHandler._handle_api` / `handler.do_GET`: `try` the fetch, answer 200
with the payload, else map `RuntimeError` → 503, `HTTPError` → 502 with
`"Smartsheet API returned {code}: {reason}"`, any other `Exception` → 500
with `"Internal error: {exc}"`, each with an `{"error": ...}` body. -/
def handle_api (token : Option String) (cfg : ConfigResult)
    (upstream : UpstreamResult) : HttpResponse :=
  match fetch_smartsheet_data token cfg upstream with
  | .ok o => { status := 200, body := .payload o }
  | .error (.runtimeError m) => { status := 503, body := .errorObj m }
  | .error (.httpError c r) =>
      { status := 502
        body := .errorObj ("Smartsheet API returned " ++ toString c ++ ": " ++ r) }
  | .error (.otherError m) =>
      { status := 500, body := .errorObj ("Internal error: " ++ m) }

/-! ## Concrete inputs used by the end-to-end claims -/

/-- The spec's end-to-end sheet payload: two columns, two rows, the second
row's name cell holding the empty string. -/
def sheetEx : Sheet :=
  { name := none
    columns := [⟨1, "Use Case"⟩, ⟨2, "Status"⟩]
    rows :=
      [⟨[⟨some 1, some "Chatbot", none⟩, ⟨some 2, some "In Production", none⟩]⟩,
       ⟨[⟨some 1, some "", none⟩]⟩] }

/-- The spec's end-to-end `column_map`. -/
def colMapEx : FieldMap := [("name", "Use Case"), ("status", "Status")]

/-- A sheet for the `"id"`-collision edge case: column 1 titled `"N"`
carries the name, column 2 titled `"X"` is mapped to the domain field
`"id"`. -/
def sheetId : Sheet :=
  { name := none
    columns := [⟨1, "N"⟩, ⟨2, "X"⟩]
    rows := [⟨[⟨some 1, some "A", none⟩, ⟨some 2, some "7", none⟩]⟩] }

/-- A field map whose key set contains `"id"`. -/
def colMapId : FieldMap := [("name", "N"), ("id", "X")]

/-! ## Association-list (Python dict) lemmas -/


theorem foldl_inv {α β : Type} (P : β → Prop) (f : β → α → β)
    (hf : ∀ b a, P b → P (f b a)) :
    ∀ (l : List α) (b : β), P b → P (l.foldl f b) := by
  intro l
  induction l with
  | nil => intro b hb; exact hb
  | cons a t ih => intro b hb; exact ih _ (hf _ _ hb)

theorem pyGet_mem {α β : Type} [DecidableEq α] {l : List (α × β)} {k : α} {v : β}
    (h : pyGet l k = some v) : (k, v) ∈ l := by
  induction l with
  | nil => simp [pyGet] at h
  | cons p rest ih =>
    simp only [pyGet] at h
    cases hr : pyGet rest k with
    | some w =>
      rw [hr] at h
      exact List.mem_cons_of_mem _ (ih (hr.trans (congrArg some (Option.some.inj h))))
    | none =>
      rw [hr] at h
      by_cases hk : p.1 = k
      · simp [hk] at h
        have hp : p = (k, v) := by cases p; simp_all
        rw [hp]
        exact List.mem_cons_self _ _
      · simp [hk] at h

theorem pyGet_append_single {α β : Type} [DecidableEq α] (l : List (α × β)) (k : α) (v : β) :
    pyGet (l ++ [(k, v)]) k = some v := by
  induction l with
  | nil => simp [pyGet]
  | cons p rest ih => simp [pyGet, ih]

theorem pyGet_append_single_ne {α β : Type} [DecidableEq α] (l : List (α × β))
    {k k' : α} (v : β) (h : k' ≠ k) :
    pyGet (l ++ [(k, v)]) k' = pyGet l k' := by
  induction l with
  | nil => simp [pyGet, Ne.symm h]
  | cons p rest ih => simp [pyGet, ih]

theorem pyGet_map_repaint {α β : Type} [DecidableEq α] (l : List (α × β)) (k : α) (v : β) :
    pyGet (l.map fun p => if p.1 = k then (k, v) else p) k
      = (pyGet l k).map (fun _ => v) := by
  induction l with
  | nil => simp [pyGet]
  | cons p rest ih =>
    simp only [List.map_cons, pyGet, ih]
    cases hr : pyGet rest k with
    | some w => simp
    | none =>
      by_cases hk : p.1 = k
      · simp [hk]
      · simp [hk]

theorem pyGet_map_repaint_ne {α β : Type} [DecidableEq α] (l : List (α × β))
    {k k' : α} (v : β) (h : k' ≠ k) :
    pyGet (l.map fun p => if p.1 = k then (k, v) else p) k' = pyGet l k' := by
  induction l with
  | nil => simp [pyGet]
  | cons p rest ih =>
    simp only [List.map_cons, pyGet, ih]
    by_cases hk : p.1 = k
    · simp [hk, Ne.symm h]
    · simp [hk]

theorem pyGet_isSome_of_any {α β : Type} [DecidableEq α] {l : List (α × β)} {k : α}
    (h : l.any (fun p => decide (p.1 = k)) = true) : ∃ w, pyGet l k = some w := by
  induction l with
  | nil => simp at h
  | cons p rest ih =>
    simp only [List.any_cons, Bool.or_eq_true, decide_eq_true_eq] at h
    cases hr : pyGet rest k with
    | some w => exact ⟨w, by simp [pyGet, hr]⟩
    | none =>
      rcases h with h | h
      · exact ⟨p.2, by simp [pyGet, hr, h]⟩
      · rcases ih (by simpa using h) with ⟨w, hw⟩
        rw [hw] at hr; cases hr

theorem pyGet_dictSet_self {α β : Type} [DecidableEq α] (d : List (α × β)) (k : α) (v : β) :
    pyGet (dictSet d k v) k = some v := by
  unfold dictSet
  by_cases h : d.any (fun p => decide (p.1 = k)) = true
  · rcases pyGet_isSome_of_any h with ⟨w, hw⟩
    simp [h, pyGet_map_repaint, hw]
  · simp [h, pyGet_append_single]

theorem pyGet_dictSet_ne {α β : Type} [DecidableEq α] (d : List (α × β))
    {k k' : α} (v : β) (h : k' ≠ k) :
    pyGet (dictSet d k v) k' = pyGet d k' := by
  unfold dictSet
  by_cases hc : d.any (fun p => decide (p.1 = k)) = true
  · simp [hc, pyGet_map_repaint_ne _ _ h]
  · simp [hc, pyGet_append_single_ne _ _ h]

theorem mem_dictSet {α β : Type} [DecidableEq α] {d : List (α × β)} {k : α} {v : β}
    {q : α × β} (h : q ∈ dictSet d k v) : q = (k, v) ∨ q ∈ d := by
  unfold dictSet at h
  by_cases hc : d.any (fun p => decide (p.1 = k)) = true
  · rw [if_pos hc] at h
    rcases List.mem_map.1 h with ⟨p, hp, he⟩
    by_cases hk : p.1 = k
    · left; rw [← he]; simp [hk]
    · right; rw [← he]; simpa [hk] using hp
  · rw [if_neg hc] at h
    rcases List.mem_append.1 h with h | h
    · right; exact h
    · left; simpa using h

/-! ## Claim theorems -/

/-- C1: on the spec's concrete end-to-end input (field map
`{"name": "Use Case", "status": "Status"}`, the two-column / two-row sheet
payload), the transformer produces exactly one use case
`{"id": 1, "name": "Chatbot", "status": "In Production"}` and the summary
`{total_initiatives: 1, in_production: 1, poc_done: 0, poc_in_progress: 0}`;
the second row is dropped because its name resolves to `""`. -/
theorem c1_end_to_end :
    (transform sheetEx colMapEx).use_cases =
      [[("id", Value.int 1), ("name", Value.str "Chatbot"),
        ("status", Value.str "In Production")]] ∧
    (transform sheetEx colMapEx).summary =
      { total_initiatives := 1, in_production := 1, poc_done := 0,
        poc_in_progress := 0 } := by
  constructor <;> decide

/-- C3: a cell whose column resolves to a (non-empty) domain field records
exactly `cellValue cell`, and `cellValue` gives `displayValue` when present
and non-empty, else `value` when present and non-empty, else `""`; in
particular `value="A"`/`displayValue="B"` yields `"B"` and
`displayValue=""`/`value="A"` yields `"A"`. -/
theorem c3_field_precedence :
    (∀ (c2t : List (Nat × String)) (t2f : List (String × String)) (rec : Record)
        (cell : Cell) (f : String),
        pyGet t2f (pyGetD c2t (cell.columnId.getD 0) "") = some f → f ≠ "" →
        applyCell c2t t2f rec cell = dictSet rec f (Value.str (cellValue cell))) ∧
    (∀ (cell : Cell) (d : String), cell.displayValue = some d → d ≠ "" →
        cellValue cell = d) ∧
    (∀ cell : Cell, (cell.displayValue = none ∨ cell.displayValue = some "") →
        ∀ v : String, cell.value = some v → v ≠ "" → cellValue cell = v) ∧
    (∀ cell : Cell, (cell.displayValue = none ∨ cell.displayValue = some "") →
        (cell.value = none ∨ cell.value = some "") → cellValue cell = "") ∧
    cellValue ⟨none, some "A", some "B"⟩ = "B" ∧
    cellValue ⟨none, some "A", some ""⟩ = "A" := by
  refine ⟨?_, ?_, ?_, ?_, by decide, by decide⟩
  · intro c2t t2f rec cell f hf hne
    unfold applyCell
    rw [hf]
    simp [hne]
  · intro cell d hd hne
    simp [cellValue, truthyStr, hd, hne]
  · intro cell hd v hv hne
    rcases hd with hd | hd <;> simp [cellValue, truthyStr, hd, hv, hne]
  · intro cell hd hv
    rcases hd with hd | hd <;> rcases hv with hv | hv <;>
      simp [cellValue, truthyStr, hd, hv]

theorem c3_witness : cellValue ⟨none, some "A", some "B"⟩ = "B" :=
  c3_field_precedence.2.2.2.2.1

/-- C8: the sheet-to-domain transformation is a pure, deterministic function
of the parsed sheet payload and the field map: equal inputs give identical
`{metadata, summary, use_cases}` output (purity/absence of side effects
holds by construction: `transform` is a total Lean function of exactly
these two arguments). -/
theorem c8_transform_deterministic (s₁ s₂ : Sheet) (m₁ m₂ : FieldMap)
    (hs : s₁ = s₂) (hm : m₁ = m₂) : transform s₁ m₁ = transform s₂ m₂ := by
  rw [hs, hm]

theorem c8_witness : transform sheetEx colMapEx = transform sheetEx colMapEx :=
  c8_transform_deterministic sheetEx sheetEx colMapEx colMapEx rfl rfl

/-- C10: if the field map contains the key `"id"` and a cell resolves to it,
the resolved cell value overwrites the positionally assigned row id before
the name filter runs; the witness record is retained with
`id = Value.str "7"`, which is not the integer row position (not an integer
at all). -/
theorem c10_id_overwritten :
    ∃ (sheet : Sheet) (colMap : FieldMap) (r : Record),
      "id" ∈ colMap.map Prod.fst ∧
      r ∈ (transform sheet colMap).use_cases ∧
      pyGet r "id" = some (Value.str "7") ∧
      ∀ n : Nat, pyGet r "id" ≠ some (Value.int n) := by
  refine ⟨sheetId, colMapId, [("id", Value.str "7"), ("name", Value.str "A")],
    by decide, by decide, by decide, ?_⟩
  intro n h
  simp [pyGet] at h

/-- C2 counterexample: with a bearer token configured but the configuration
file absent (the `OSError` from `open`), the API route answers 500, not the
503 the claim requires for an absent/unreadable config file. -/
theorem c2_counterexample :
    (handle_api (some "token") (ConfigResult.fileError "No such file or directory")
        (UpstreamResult.ok ⟨none, [], []⟩)).status = 500 ∧
    ¬ (handle_api (some "token") (ConfigResult.fileError "No such file or directory")
        (UpstreamResult.ok ⟨none, [], []⟩)).status = 503 := by
  constructor <;> decide

/-- C2 (amended): a blank/absent token gives 503; a missing or unreadable
config file gives 500 (its `OSError`/`JSONDecodeError` is caught by the
generic `except Exception` clause, not the `RuntimeError` clause); a non-2xx
upstream response gives 502 with the remote status code and reason phrase in
the message; any other failure gives 500; every non-200 response body is a
JSON object `{"error": <string>}`; and on success the route answers 200 with
the transformer's output. -/
theorem c2_status_map (token : Option String) (cfg : ConfigResult)
    (upstream : UpstreamResult) :
    (tokenBlank token = true → (handle_api token cfg upstream).status = 503) ∧
    (tokenBlank token = false → ∀ m : String,
        (cfg = ConfigResult.fileError m ∨ cfg = ConfigResult.parseError m) →
        (handle_api token cfg upstream).status = 500) ∧
    (tokenBlank token = false → ∀ (sid : String) (cm : FieldMap) (c : Nat) (r : String),
        cfg = ConfigResult.ok sid cm → upstream = UpstreamResult.httpError c r →
        (handle_api token cfg upstream).status = 502 ∧
        (handle_api token cfg upstream).body =
          Body.errorObj ("Smartsheet API returned " ++ toString c ++ ": " ++ r)) ∧
    (tokenBlank token = false → ∀ (sid : String) (cm : FieldMap) (m : String),
        cfg = ConfigResult.ok sid cm →
        (upstream = UpstreamResult.transportError m ∨
          upstream = UpstreamResult.parseError m) →
        (handle_api token cfg upstream).status = 500) ∧
    ((handle_api token cfg upstream).status ≠ 200 →
        ∃ m : String, (handle_api token cfg upstream).body = Body.errorObj m) ∧
    (tokenBlank token = false → ∀ (sid : String) (cm : FieldMap) (sheet : Sheet),
        cfg = ConfigResult.ok sid cm → upstream = UpstreamResult.ok sheet →
        (handle_api token cfg upstream).status = 200 ∧
        (handle_api token cfg upstream).body = Body.payload (transform sheet cm)) := by
  refine ⟨?_, ?_, ?_, ?_, ?_, ?_⟩
  · intro h
    simp [handle_api, fetch_smartsheet_data, h]
  · intro h m hm
    rcases hm with hm | hm <;> subst hm <;>
      simp [handle_api, fetch_smartsheet_data, h]
  · intro h sid cm c r hc hu
    subst hc; subst hu
    constructor <;> simp [handle_api, fetch_smartsheet_data, h]
  · intro h sid cm m hc hu
    subst hc
    rcases hu with hu | hu <;> subst hu <;>
      simp [handle_api, fetch_smartsheet_data, h]
  · intro h200
    by_cases ht : tokenBlank token = true
    · exact ⟨tokenMissingMsg, by simp [handle_api, fetch_smartsheet_data, ht]⟩
    · rw [Bool.not_eq_true] at ht
      cases cfg with
      | fileError m =>
        exact ⟨"Internal error: " ++ m,
          by simp [handle_api, fetch_smartsheet_data, ht]⟩
      | parseError m =>
        exact ⟨"Internal error: " ++ m,
          by simp [handle_api, fetch_smartsheet_data, ht]⟩
      | ok sid cm =>
        cases upstream with
        | httpError c r =>
          exact ⟨"Smartsheet API returned " ++ toString c ++ ": " ++ r,
            by simp [handle_api, fetch_smartsheet_data, ht]⟩
        | transportError m =>
          exact ⟨"Internal error: " ++ m,
            by simp [handle_api, fetch_smartsheet_data, ht]⟩
        | parseError m =>
          exact ⟨"Internal error: " ++ m,
            by simp [handle_api, fetch_smartsheet_data, ht]⟩
        | ok sheet =>
          exact absurd (by simp [handle_api, fetch_smartsheet_data, ht]) h200
  · intro h sid cm sheet hc hu
    subst hc; subst hu
    constructor <;> simp [handle_api, fetch_smartsheet_data, h]

theorem c2_witness :
    (handle_api none (ConfigResult.ok "123" colMapEx)
        (UpstreamResult.ok sheetEx)).status = 503 :=
  (c2_status_map none (ConfigResult.ok "123" colMapEx)
      (UpstreamResult.ok sheetEx)).1 (by decide)

/-! ## Record invariants -/

/-- Case split on one cell step: either the cell does not resolve (record
unchanged) or it resolves to a non-empty field `f` and the record is
updated with the resolved cell value at `f`. -/
theorem applyCell_cases (c2t : List (Nat × String))
    (t2f : List (String × String)) (rec : Record) (cell : Cell) :
    applyCell c2t t2f rec cell = rec ∨
    ∃ f, pyGet t2f (pyGetD c2t (cell.columnId.getD 0) "") = some f ∧ f ≠ "" ∧
      applyCell c2t t2f rec cell = dictSet rec f (Value.str (cellValue cell)) := by
  unfold applyCell
  cases hf : pyGet t2f (pyGetD c2t (cell.columnId.getD 0) "") with
  | none => left; rfl
  | some f =>
    by_cases hfe : f = ""
    · left; simp [hfe]
    · right
      refine ⟨f, rfl, hfe, ?_⟩
      simp [hfe]

/-- Any value stored under `"name"` in a per-row record is a string: the
initial record holds only `("id", Value.int idx)` and every cell write
stores a `Value.str`. -/
theorem processRow_name_str (c2t : List (Nat × String))
    (t2f : List (String × String)) (idx : Nat) (row : Row) :
    ∀ v, pyGet (processRow c2t t2f idx row) "name" = some v →
      ∃ s, v = Value.str s := by
  unfold processRow
  have step : ∀ rec cell,
      (∀ v, pyGet rec "name" = some v → ∃ s, v = Value.str s) →
      (∀ v, pyGet (applyCell c2t t2f rec cell) "name" = some v →
        ∃ s, v = Value.str s) := by
    intro rec cell ih v hv
    rcases applyCell_cases c2t t2f rec cell with he | ⟨f, hf, hfe, he⟩
    · rw [he] at hv; exact ih v hv
    · rw [he] at hv
      by_cases hn : f = "name"
      · subst hn
        rw [pyGet_dictSet_self] at hv
        exact ⟨cellValue cell, (Option.some.inj hv).symm⟩
      · rw [pyGet_dictSet_ne _ _ (Ne.symm hn)] at hv
        exact ih v hv
  refine foldl_inv _ _ step row.cells _ ?_
  intro v hv
  simp [pyGet] at hv

/-- If no domain field of the inverted lookup is `"id"`, the positional id
assigned at record construction survives all cell writes. -/
theorem processRow_id (c2t : List (Nat × String))
    (t2f : List (String × String)) (hid : ∀ q ∈ t2f, q.2 ≠ "id")
    (idx : Nat) (row : Row) :
    pyGet (processRow c2t t2f idx row) "id" = some (Value.int idx) := by
  unfold processRow
  have step : ∀ rec cell,
      pyGet rec "id" = some (Value.int idx) →
      pyGet (applyCell c2t t2f rec cell) "id" = some (Value.int idx) := by
    intro rec cell ih
    rcases applyCell_cases c2t t2f rec cell with he | ⟨f, hf, hfe, he⟩
    · rw [he]; exact ih
    · rw [he, pyGet_dictSet_ne _ _ (Ne.symm (hid _ (pyGet_mem hf)))]
      exact ih
  refine foldl_inv _ _ step row.cells _ ?_
  simp [pyGet]

/-- Every key of a per-row record is `"id"` or a field written from the
inverted lookup. -/
theorem processRow_keys (c2t : List (Nat × String))
    (t2f : List (String × String)) (keys : List String)
    (hk : ∀ q ∈ t2f, q.2 ∈ keys) (idx : Nat) (row : Row) :
    ∀ p ∈ processRow c2t t2f idx row, p.1 = "id" ∨ p.1 ∈ keys := by
  unfold processRow
  have step : ∀ rec cell, (∀ p ∈ rec, p.1 = "id" ∨ p.1 ∈ keys) →
      ∀ p ∈ applyCell c2t t2f rec cell, p.1 = "id" ∨ p.1 ∈ keys := by
    intro rec cell ih p hp
    rcases applyCell_cases c2t t2f rec cell with he | ⟨f, hf, hfe, he⟩
    · rw [he] at hp; exact ih p hp
    · rw [he] at hp
      rcases mem_dictSet hp with rfl | hp'
      · right
        exact hk _ (pyGet_mem hf)
      · exact ih p hp'
  refine foldl_inv _ _ step row.cells _ ?_
  intro p hp
  rcases List.mem_singleton.1 hp with rfl
  left; rfl

/-- Every element of `rawRecords` is a `processRow` of some index and row. -/
theorem mem_rawRecords {sheet : Sheet} {colMap : FieldMap} {r : Record}
    (hr : r ∈ rawRecords sheet colMap) :
    ∃ idx row, r = processRow (buildColIdToTitle sheet.columns)
      (buildTitleToField colMap) idx row := by
  rcases List.mem_map.1 hr with ⟨q, hq, he⟩
  exact ⟨q.1 + 1, q.2, he.symm⟩

/-- C4: a row's record is retained in `use_cases` iff its resolved name is
present and a non-empty string (an absent name or the empty string drops
the row); hence every output record has a non-empty name. -/
theorem c4_name_filter (sheet : Sheet) (colMap : FieldMap) :
    (transform sheet colMap).use_cases = (rawRecords sheet colMap).filter hasName ∧
    (∀ r ∈ rawRecords sheet colMap,
      (r ∈ (transform sheet colMap).use_cases ↔
        ∃ s, pyGet r "name" = some (Value.str s) ∧ s ≠ "")) ∧
    (∀ r ∈ (transform sheet colMap).use_cases,
      ∃ s, pyGet r "name" = some (Value.str s) ∧ s ≠ "") := by
  have hstr : ∀ r ∈ rawRecords sheet colMap,
      ∀ v, pyGet r "name" = some v → ∃ s, v = Value.str s := by
    intro r hr
    rcases mem_rawRecords hr with ⟨idx, row, rfl⟩
    exact processRow_name_str _ _ idx row
  have hiff : ∀ r ∈ rawRecords sheet colMap,
      (hasName r = true ↔ ∃ s, pyGet r "name" = some (Value.str s) ∧ s ≠ "") := by
    intro r hr
    unfold hasName
    cases hv : pyGet r "name" with
    | none => simp
    | some v =>
      rcases hstr r hr v hv with ⟨s, rfl⟩
      simp [valueTruthy]
  refine ⟨rfl, ?_, ?_⟩
  · intro r hr
    constructor
    · intro h
      have h' : r ∈ (rawRecords sheet colMap).filter hasName := h
      exact (hiff r hr).1 (List.mem_filter.1 h').2
    · intro h
      show r ∈ (rawRecords sheet colMap).filter hasName
      exact List.mem_filter.2 ⟨hr, (hiff r hr).2 h⟩
  · intro r hr
    have h' : r ∈ (rawRecords sheet colMap).filter hasName := hr
    have hrr := (List.mem_filter.1 h').1
    exact (hiff r hrr).1 (List.mem_filter.1 h').2

theorem c4_witness :
    ∃ s, pyGet [("id", Value.int 1), ("name", Value.str "Chatbot"),
      ("status", Value.str "In Production")] "name" = some (Value.str s) ∧
      s ≠ "" :=
  (c4_name_filter sheetEx colMapEx).2.2
    [("id", Value.int 1), ("name", Value.str "Chatbot"),
      ("status", Value.str "In Production")] (by decide)

/-- The mapped status list's occurrence count of a status label is the
number of retained records whose `status` field (empty string when absent)
equals that label exactly. -/
theorem count_map_statusOf (l : List Record) (v : Value) :
    (l.map statusOf).count v = l.countP (fun r => decide (statusOf r = v)) := by
  rw [List.count_eq_countP, List.countP_map]
  rfl

/-- C5: `summary.total_initiatives` is the length of `use_cases`, and each
counter counts exact, case-sensitive matches of the retained records'
`status` field (empty string when absent) against its literal label. -/
theorem c5_summary_counts (sheet : Sheet) (colMap : FieldMap) :
    (transform sheet colMap).summary.total_initiatives =
      (transform sheet colMap).use_cases.length ∧
    (transform sheet colMap).summary.in_production =
      (transform sheet colMap).use_cases.countP
        (fun r => decide (statusOf r = Value.str "In Production")) ∧
    (transform sheet colMap).summary.poc_done =
      (transform sheet colMap).use_cases.countP
        (fun r => decide (statusOf r = Value.str "POC Done")) ∧
    (transform sheet colMap).summary.poc_in_progress =
      (transform sheet colMap).use_cases.countP
        (fun r => decide (statusOf r = Value.str "POC In Progress")) := by
  exact ⟨rfl, count_map_statusOf _ _, count_map_statusOf _ _,
    count_map_statusOf _ _⟩

/-- C9: every key of every output record other than `"id"` is a key of the
field map. -/
theorem c9_keys_subset (sheet : Sheet) (colMap : FieldMap) :
    ∀ r ∈ (transform sheet colMap).use_cases, ∀ p ∈ r,
      p.1 = "id" ∨ p.1 ∈ colMap.map Prod.fst := by
  intro r hr p hp
  have h' : r ∈ (rawRecords sheet colMap).filter hasName := hr
  rcases mem_rawRecords (List.mem_filter.1 h').1 with ⟨idx, row, rfl⟩
  refine processRow_keys _ _ _ ?_ idx row p hp
  intro q hq
  simp only [buildTitleToField] at hq
  rcases List.mem_map.1 hq with ⟨pr, hpr, he⟩
  rw [← he]
  exact List.mem_map.2 ⟨pr, hpr, rfl⟩

theorem c9_witness :
    (("name", Value.str "Chatbot") : String × Value).1 = "id" ∨
      (("name", Value.str "Chatbot") : String × Value).1 ∈
        colMapEx.map Prod.fst :=
  c9_keys_subset sheetEx colMapEx
    [("id", Value.int 1), ("name", Value.str "Chatbot"),
      ("status", Value.str "In Production")]
    (by decide) ("name", Value.str "Chatbot") (by decide)

/-! ## Ordering and collision claims -/

/-- `pyGet` over an append: the right-hand part wins when it binds the key. -/
theorem pyGet_append {α β : Type} [DecidableEq α] (l₁ l₂ : List (α × β)) (k : α) :
    pyGet (l₁ ++ l₂) k =
      match pyGet l₂ k with
      | some v => some v
      | none => pyGet l₁ k := by
  induction l₁ with
  | nil =>
    simp only [List.nil_append]
    cases pyGet l₂ k <;> rfl
  | cons p rest ih =>
    simp only [List.cons_append, pyGet, List.append_eq, ih]
    cases pyGet l₂ k <;> cases pyGet rest k <;> rfl

/-- A list binding none of key `k` looks up to `none`. -/
theorem pyGet_eq_none {α β : Type} [DecidableEq α] {l : List (α × β)} {k : α}
    (h : ∀ p ∈ l, p.1 ≠ k) : pyGet l k = none := by
  induction l with
  | nil => rfl
  | cons p rest ih =>
    have h1 : p.1 ≠ k := h p (List.mem_cons_self _ _)
    have h2 : pyGet rest k = none :=
      ih (fun q hq => h q (List.mem_cons_of_mem _ hq))
    simp [pyGet, h1, h2]

/-- C7: both lookups resolve collisions last-write-wins: of two columns with
the same id, the later column's title is recorded, and of two domain fields
mapped to the same title, the later-inserted field survives the inversion. -/
theorem c7_last_write_wins :
    (∀ (pre mid post : List Column) (i : Nat) (t₁ t₂ : String),
        (∀ c ∈ post, c.id ≠ i) →
        pyGet (buildColIdToTitle (pre ++ [⟨i, t₁⟩] ++ mid ++ [⟨i, t₂⟩] ++ post)) i
          = some t₂) ∧
    (∀ (pre mid post : FieldMap) (t f₁ f₂ : String),
        (∀ p ∈ post, p.2 ≠ t) →
        pyGet (buildTitleToField (pre ++ [(f₁, t)] ++ mid ++ [(f₂, t)] ++ post)) t
          = some f₂) := by
  constructor
  · intro pre mid post i t₁ t₂ hpost
    have hnone : pyGet (post.map fun c => (c.id, c.title)) i = none := by
      apply pyGet_eq_none
      intro q hq
      rcases List.mem_map.1 hq with ⟨c, hc, he⟩
      rw [← he]
      exact hpost c hc
    simp only [buildColIdToTitle, List.map_append, List.map_cons, List.map_nil]
    rw [pyGet_append, hnone]
    exact pyGet_append_single _ _ _
  · intro pre mid post t f₁ f₂ hpost
    have hnone : pyGet (post.map fun p => (p.2, p.1)) t = none := by
      apply pyGet_eq_none
      intro q hq
      rcases List.mem_map.1 hq with ⟨p, hp, he⟩
      rw [← he]
      exact hpost p hp
    simp only [buildTitleToField, List.map_append, List.map_cons, List.map_nil]
    rw [pyGet_append, hnone]
    exact pyGet_append_single _ _ _

theorem c7_witness :
    pyGet (buildColIdToTitle
        ([] ++ [⟨5, "first"⟩] ++ [] ++ [⟨5, "second"⟩] ++ [])) 5
      = some "second" :=
  c7_last_write_wins.1 [] [] [] 5 "first" "second" (by decide)

/-- Extracts the integer id of a record (`0` when absent or non-integer). -/
def recIdNat (r : Record) : Nat :=
  match pyGet r "id" with
  | some (Value.int n) => n
  | _ => 0

theorem rawRecords_length (sheet : Sheet) (colMap : FieldMap) :
    (rawRecords sheet colMap).length = sheet.rows.length := by
  simp [rawRecords]

/-- When `"id"` is not a field-map key, the record at position `i` (0-based)
of the pre-filter sequence carries id `i + 1`. -/
theorem rawRecords_id (sheet : Sheet) (colMap : FieldMap)
    (hid : ∀ p ∈ colMap, p.1 ≠ "id") (i : Nat)
    (hi : i < (rawRecords sheet colMap).length) :
    pyGet ((rawRecords sheet colMap).get ⟨i, hi⟩) "id"
      = some (Value.int (i + 1)) := by
  have hid' : ∀ q ∈ buildTitleToField colMap, q.2 ≠ "id" := by
    intro q hq
    simp only [buildTitleToField] at hq
    rcases List.mem_map.1 hq with ⟨pr, hpr, he⟩
    rw [← he]
    exact hid pr hpr
  simp only [List.get_eq_getElem, rawRecords, List.getElem_map, List.getElem_enum]
  exact processRow_id _ _ hid' _ _

/-- C6 (amended): provided `"id"` is not a key of the field map, the output
sequence is the input row order filtered by name, every pre-filter record's
id is its 1-based position over all rows, and the retained records' ids are
strictly increasing (not necessarily contiguous). -/
theorem c6_positional_ids (sheet : Sheet) (colMap : FieldMap)
    (hid : ∀ p ∈ colMap, p.1 ≠ "id") :
    (transform sheet colMap).use_cases = (rawRecords sheet colMap).filter hasName ∧
    (∀ (i : Nat) (hi : i < (rawRecords sheet colMap).length),
        pyGet ((rawRecords sheet colMap).get ⟨i, hi⟩) "id"
          = some (Value.int (i + 1))) ∧
    ((transform sheet colMap).use_cases.map recIdNat).Pairwise (· < ·) := by
  refine ⟨rfl, fun i hi => rawRecords_id sheet colMap hid i hi, ?_⟩
  have hmapeq : (rawRecords sheet colMap).map recIdNat
      = List.range' 1 sheet.rows.length := by
    apply List.ext_getElem
    · simp [rawRecords_length]
    · intro i h1 h2
      have hi : i < (rawRecords sheet colMap).length := by simpa using h1
      rw [List.getElem_map, List.getElem_range'_1]
      have := rawRecords_id sheet colMap hid i hi
      rw [List.get_eq_getElem] at this
      simp [recIdNat, this]
      omega
  have hpair : ((rawRecords sheet colMap).map recIdNat).Pairwise (· < ·) := by
    rw [hmapeq]
    exact List.pairwise_lt_range' 1 sheet.rows.length
  exact List.Pairwise.sublist ((List.filter_sublist _).map recIdNat) hpair

theorem c6_witness :
    (transform sheetEx colMapEx).use_cases =
      (rawRecords sheetEx colMapEx).filter hasName :=
  (c6_positional_ids sheetEx colMapEx (by decide)).1

/-- C6 counterexample: with the field map containing the key `"id"` mapped
to a matched column title, the single retained record's id is the string
`"7"` written by the cell, not the integer `1` (its 1-based row position),
so the unconditional positional-id claim fails. -/
theorem c6_counterexample :
    (transform sheetId colMapId).use_cases =
      [[("id", Value.str "7"), ("name", Value.str "A")]] ∧
    pyGet [("id", Value.str "7"), ("name", Value.str "A")] "id" ≠
      some (Value.int 1) := by
  constructor <;> decide

end Dashboard
